import Mathlib

/-!
Verification of the konsole console-logging package (src/konsole/__init__.py)
against its natural-language specification. The Python code is shallowly
embedded: Python values that may appear as a structured detail payload or as a
keyword argument become the inductive `PyVal`; string formatting, the style
registry, the formatter methods, the detail-keyword preparation, the `config`
call and the `redirect` context manager are translated into executable Lean
functions. Python exceptions are modelled with `Except String`.
-/

namespace Konsole

/-- Python values as they occur in konsole: scalars (strings, ints, bools,
None) and the three container shapes the detail renderer distinguishes
(dict, list, tuple). Dict keys are modelled as strings, matching the
spec's "ordered mapping of short keys to values"; insertion order is the
list order. -/
inductive PyVal where
  | str (s : String)
  | int (n : Int)
  | bool (b : Bool)
  | none
  | list (items : List PyVal)
  | tuple (items : List PyVal)
  | dict (entries : List (String × PyVal))

mutual

/-- Python `repr`, as used by `str` on containers: strings are quoted, ints
and bools and None print their literal form, containers print their elements
recursively via `repr`. -/
def pyRepr : PyVal → String
  | .str s => "\x27" ++ s ++ "\x27"
  | .int n => toString n
  | .bool b => if b then "True" else "False"
  | .none => "None"
  | .list items => "[" ++ String.intercalate ", " (pyReprList items) ++ "]"
  | .tuple [item] => "(" ++ pyRepr item ++ ",)"
  | .tuple items => "(" ++ String.intercalate ", " (pyReprList items) ++ ")"
  | .dict entries =>
      "\x7b" ++ String.intercalate ", " (pyReprEntries entries) ++ "\x7d"
termination_by v => sizeOf v

/-- Helper for `pyRepr`: the reprs of the elements of a list value. -/
def pyReprList : List PyVal → List String
  | [] => []
  | v :: vs => pyRepr v :: pyReprList vs
termination_by l => sizeOf l

/-- Helper for `pyRepr`: the reprs of the entries of a dict value. -/
def pyReprEntries : List (String × PyVal) → List String
  | [] => []
  | (k, v) :: es => ("\x27" ++ k ++ "\x27: " ++ pyRepr v) :: pyReprEntries es
termination_by l => sizeOf l

end

/-- Python `str`, as invoked by f-string interpolation `f"{value}"`:
identity on strings, `repr` on everything else. -/
def pyStr : PyVal → String
  | .str s => s
  | v => pyRepr v

/-- Python `f"{key:>{width}}"`: right-justify a string in a field of the
given width, padding with spaces on the left. -/
def rjust (s : String) (width : Nat) : String :=
  String.mk (List.replicate (width - s.length) ' ') ++ s

/-- Python `text.split(sep)` for a one-character separator, on character
lists: always returns at least one (possibly empty) segment. -/
def splitChar (sep : Char) : List Char → List (List Char)
  | [] => [[]]
  | c :: cs =>
      match splitChar sep cs with
      | [] => [[c]]
      | l :: ls => if c = sep then [] :: l :: ls else (c :: l) :: ls

/-- Python `text.split(sep)` for a one-character separator, on strings. -/
def pySplit (s : String) (sep : Char) : List String :=
  (splitChar sep s.data).map (fun cs => String.mk cs)

/-- Python `s.endswith(suffix)` for a single suffix: the suffix's characters
are a suffix of the string's characters. -/
def pyEndswith (s : String) (suffix : String) : Bool :=
  suffix.data.reverse.isPrefixOf s.data.reverse

/-- The `SGR` class: a Select Graphic Rendition pair, without the escape
prefix and the terminating `m`. -/
structure SGR where
  enable : String
  disable : String

/-- `SGR.__call__`: wrap text in the enable and disable escape sequences. -/
def SGR.apply (sgr : SGR) (text : String) : String :=
  "\x1b[" ++ sgr.enable ++ "m" ++ text ++ "\x1b[" ++ sgr.disable ++ "m"

/-- `KonsoleFormatter.DETAIL`. -/
def DETAIL : String := "<detail>"

/-- `KonsoleFormatter.EXCEPTION`. -/
def EXCEPTION : String := "<exception>"

/-- `KonsoleFormatter.MESSAGE`. -/
def MESSAGE : String := "<message>"

/-- `KonsoleFormatter.PUNCTUATION`: the recognized terminal punctuation
marks. -/
def PUNCTUATION : List String := ["!", ",", ".", ":", ";", "?", "\"", "\x27"]

/-- `KonsoleFormatter.STYLE`: the fixed style registry. Keys are severity
label names and the three component roles; `DEBUG` has no entry. -/
def STYLE : String → Option SGR
  | "CRITICAL" => Option.some ⟨"1;35", "0;39"⟩
  | "ERROR" => Option.some ⟨"1;31", "0;39"⟩
  | "WARNING" => Option.some ⟨"1;38;5;208", "0;39"⟩
  | "INFO" => Option.some ⟨"1", "0"⟩
  | "<message>" => Option.some ⟨"1", "0"⟩
  | "<detail>" => Option.some ⟨"90", "0"⟩
  | "<exception>" => Option.some ⟨"90", "0"⟩
  | _ => Option.none

/-- `KonsoleFormatter.applyStyle`: style the text if a style is registered
for the name and color is in use, else return the text unchanged. -/
def applyStyle (use_color : Bool) (name : String) (text : String) : String :=
  match STYLE name with
  | Option.some style => if use_color then style.apply text else text
  | Option.none => text

/-- `s.endswith(PUNCTUATION)`: Python `str.endswith` with a tuple argument
succeeds when any member matches. -/
def endsWithPunctuation (s : String) : Bool :=
  PUNCTUATION.any (fun p => pyEndswith s p)

/-- `KonsoleFormatter.formatDetail`, lines 111-127. The record's `detail`
attribute is `Option PyVal` (`Option.none` models the `_NoSuchValue`
sentinel). Python's `max` over the key lengths of an empty dict raises
`ValueError`, hence the `Except` result. -/
def formatDetail (use_color : Bool) (detail : Option PyVal) : Except String String :=
  match detail with
  | Option.none => Except.ok ""
  | Option.some d =>
    match d with
    | PyVal.dict entries =>
        match (entries.map (fun kv => kv.1.length)).max? with
        | Option.none => Except.error "ValueError: max() arg is an empty sequence"
        | Option.some width =>
            Except.ok (applyStyle use_color DETAIL (String.join (entries.map (fun kv =>
              "\n    " ++ rjust kv.1 width ++ " = " ++ pyStr kv.2))))
    | PyVal.list items =>
        Except.ok (applyStyle use_color DETAIL (String.join (items.map (fun item =>
          "\n    " ++ pyStr item))))
    | PyVal.tuple items =>
        Except.ok (applyStyle use_color DETAIL (String.join (items.map (fun item =>
          "\n    " ++ pyStr item))))
    | scalar =>
        Except.ok (applyStyle use_color DETAIL ("\n    " ++ pyStr scalar))

/-- Line 134-136 of `formatMessage`: append `":"` or `"."` unless the message
already ends in recognized punctuation. `detailText` is the rendered detail
block, `hasExc` the truthiness of `record.exc_info`. -/
def punctuate (message : String) (detailText : String) (hasExc : Bool) : String :=
  if endsWithPunctuation message then message
  else message ++ (if !(detailText == "") || hasExc then ":" else ".")

/-- Line 130 of `formatMessage`: the bracketed, possibly styled level label. -/
def styledLevel (use_color : Bool) (levelname : String) : String :=
  applyStyle use_color levelname ("[" ++ levelname ++ "]")

/-- Lines 137-139 of `formatMessage`: highlight the message body via the
`MESSAGE` role exactly when the rendered level label starts with the escape
character. -/
def shapeBody (use_color : Bool) (levelname : String) (message : String) : String :=
  if (styledLevel use_color levelname).data.head? = Option.some '\x1b' then
    applyStyle use_color MESSAGE message
  else message

/-- A log record as consumed by the formatter: severity label name,
already-interpolated message, optional detail payload, and optional
exception info carried as the externally rendered traceback text. -/
structure LogRecord where
  levelname : String
  message : String
  detail : Option PyVal
  exc_info : Option String

/-- `KonsoleFormatter.formatMessage`, lines 129-144. -/
def formatMessage (use_color : Bool) (record : LogRecord) : Except String String :=
  match formatDetail use_color record.detail with
  | Except.error e => Except.error e
  | Except.ok detailText =>
      let levelname := styledLevel use_color record.levelname
      let message := punctuate record.message detailText record.exc_info.isSome
      let message := shapeBody use_color record.levelname message
      let detailText :=
        if !(detailText == "") && record.exc_info.isSome then detailText ++ "\n\n"
        else detailText
      Except.ok (levelname ++ " " ++ message ++ detailText)

/-- `KonsoleFormatter.formatException`, lines 146-149: takes the externally
produced traceback text, joins its lines with a line break plus four spaces,
and applies the `EXCEPTION` style role. -/
def formatException (use_color : Bool) (tracebackText : String) : String :=
  let text := String.intercalate "\n    " (pySplit tracebackText '\n')
  applyStyle use_color EXCEPTION text

/-- The exception block of a rendered record: `logging.Formatter.format`
(the external base class) invokes `formatException` only when the record
carries exception info, so the block is empty otherwise. -/
def renderException (use_color : Bool) (exc_info : Option String) : String :=
  match exc_info with
  | Option.none => ""
  | Option.some text => formatException use_color text

/-- The severity constants re-exported from Python's `logging` module. -/
def CRITICAL : Int := 50

/-- `logging.ERROR`. -/
def ERROR : Int := 40

/-- `logging.WARNING`. -/
def WARNING : Int := 30

/-- `logging.INFO`. -/
def INFO : Int := 20

/-- `logging.DEBUG`. -/
def DEBUG : Int := 10

/-- Keyword arguments of a logging call: a Python dict from names to values,
modelled as an association list in insertion order. -/
abbrev Kwargs := List (String × PyVal)

/-- `key in kwargs`. -/
def kwHas (key : String) (kwargs : Kwargs) : Bool :=
  kwargs.any (fun kv => kv.1 == key)

/-- `kwargs[key]` lookup (first matching entry). -/
def kwGet (key : String) (kwargs : Kwargs) : Option PyVal :=
  (kwargs.find? (fun kv => kv.1 == key)).map (fun kv => kv.2)

/-- Removal of a key, as done by `kwargs.pop(key)`. -/
def kwRemove (key : String) (kwargs : Kwargs) : Kwargs :=
  kwargs.filter (fun kv => !(kv.1 == key))

/-- `mapping[key] = value` on a Python dict: replace in place when the key
exists (insertion order is preserved), else append a new entry. Used both
for `kwargs.update(extra=...)` and for `extra.update(detail=...)`. -/
def assocSet (key : String) (value : PyVal) (entries : List (String × PyVal)) :
    List (String × PyVal) :=
  if entries.any (fun kv => kv.1 == key) then
    entries.map (fun kv => if kv.1 == key then (key, value) else kv)
  else entries ++ [(key, value)]

/-- `_prepare_detail`, lines 194-204: pop the `detail` keyword; install a
fresh `extra` mapping when none was supplied; raise `ValueError` when the
supplied `extra` is not a mapping; otherwise add the detail to it.
(`kwargs.pop` on a missing key would raise `KeyError`; the caller only
invokes this when `detail` is present.) -/
def prepareDetail (kwargs : Kwargs) : Except String Kwargs :=
  match kwGet "detail" kwargs with
  | Option.none => Except.error "KeyError: detail"
  | Option.some detail =>
    let kwargs := kwRemove "detail" kwargs
    if !(kwHas "extra" kwargs) then
      Except.ok (assocSet "extra" (PyVal.dict [("detail", detail)]) kwargs)
    else
      match kwGet "extra" kwargs with
      | Option.some (PyVal.dict entries) =>
          Except.ok (assocSet "extra" (PyVal.dict (assocSet "detail" detail entries)) kwargs)
      | Option.some other =>
          Except.error ("ValueError: \"extra\" must be a dictionary but is \"" ++ pyStr other ++ "\"!")
      | Option.none => Except.error "KeyError: extra"

/-- What `KonsoleLogger.log` forwards to `super().log` (the external
dispatch engine): the target logger, the severity, the message template,
the positional arguments and the prepared keyword arguments. -/
structure Dispatch where
  loggerName : String
  level : Int
  msg : String
  args : List PyVal
  kwargs : Kwargs

/-- `KonsoleLogger.log`, lines 188-191: prepare the `detail` keyword when
present, then forward everything to the base class. -/
def konsoleLog (loggerName : String) (level : Int) (msg : String)
    (args : List PyVal) (kwargs : Kwargs) : Except String Dispatch :=
  if kwHas "detail" kwargs then
    match prepareDetail kwargs with
    | Except.error e => Except.error e
    | Except.ok kwargs => Except.ok ⟨loggerName, level, msg, args, kwargs⟩
  else Except.ok ⟨loggerName, level, msg, args, kwargs⟩

/-- The keyword arguments actually forwarded to the dispatch engine: those
of the dispatch on success, none on a raised error. -/
def okKwargs : Except String Dispatch → Kwargs
  | Except.ok d => d.kwargs
  | Except.error _ => []

/-- `KonsoleLogger.critical`, line 173-174. -/
def loggerCritical (self : String) (msg : String) (args : List PyVal) (kwargs : Kwargs) :
    Except String Dispatch :=
  konsoleLog self CRITICAL msg args kwargs

/-- `KonsoleLogger.error`, line 176-177. -/
def loggerError (self : String) (msg : String) (args : List PyVal) (kwargs : Kwargs) :
    Except String Dispatch :=
  konsoleLog self ERROR msg args kwargs

/-- `KonsoleLogger.warning`, line 179-180. -/
def loggerWarning (self : String) (msg : String) (args : List PyVal) (kwargs : Kwargs) :
    Except String Dispatch :=
  konsoleLog self WARNING msg args kwargs

/-- `KonsoleLogger.info`, line 182-183. -/
def loggerInfo (self : String) (msg : String) (args : List PyVal) (kwargs : Kwargs) :
    Except String Dispatch :=
  konsoleLog self INFO msg args kwargs

/-- `KonsoleLogger.debug`, line 185-186. -/
def loggerDebug (self : String) (msg : String) (args : List PyVal) (kwargs : Kwargs) :
    Except String Dispatch :=
  konsoleLog self DEBUG msg args kwargs

/-- The name of `_main_logger`, the logger targeted by the module-level
convenience functions. -/
def mainLoggerName : String := "__main__"

/-- Module-level `log`, lines 265-267. -/
def moduleLog (level : Int) (msg : String) (args : List PyVal) (kwargs : Kwargs) :
    Except String Dispatch :=
  konsoleLog mainLoggerName level msg args kwargs

/-- Module-level `critical`, lines 240-242. -/
def moduleCritical (msg : String) (args : List PyVal) (kwargs : Kwargs) :
    Except String Dispatch :=
  konsoleLog mainLoggerName CRITICAL msg args kwargs

/-- Module-level `error`, lines 245-247. -/
def moduleError (msg : String) (args : List PyVal) (kwargs : Kwargs) :
    Except String Dispatch :=
  konsoleLog mainLoggerName ERROR msg args kwargs

/-- Module-level `warning`, lines 250-252. -/
def moduleWarning (msg : String) (args : List PyVal) (kwargs : Kwargs) :
    Except String Dispatch :=
  konsoleLog mainLoggerName WARNING msg args kwargs

/-- Module-level `info`, lines 255-257. -/
def moduleInfo (msg : String) (args : List PyVal) (kwargs : Kwargs) :
    Except String Dispatch :=
  konsoleLog mainLoggerName INFO msg args kwargs

/-- Module-level `debug`, lines 260-262. -/
def moduleDebug (msg : String) (args : List PyVal) (kwargs : Kwargs) :
    Except String Dispatch :=
  konsoleLog mainLoggerName DEBUG msg args kwargs

/-- The module's mutable configuration: the root logger's minimum level and
the formatter's color flag. -/
structure KonsoleState where
  level : Int
  use_color : Bool

/-- `config`, lines 224-229: optionally set the logging level, optionally
force color on or off. The signature is keyword-only with exactly these two
parameters. -/
def config (st : KonsoleState) (level : Option Int) (use_color : Option Bool) : KonsoleState :=
  let st :=
    match level with
    | Option.some l => { st with level := l }
    | Option.none => st
  match use_color with
  | Option.some b => { st with use_color := b }
  | Option.none => st

/-- The keyword parameters `config` accepts, read off its signature. -/
def configKeywords : List String := ["level", "use_color"]

/-- Extract an int argument. -/
def PyVal.asInt : PyVal → Option Int
  | .int n => Option.some n
  | _ => Option.none

/-- Extract a bool argument. -/
def PyVal.asBool : PyVal → Option Bool
  | .bool b => Option.some b
  | _ => Option.none

/-- A Python call `config(**kwargs)`: any keyword outside the signature
raises `TypeError` before the body runs; otherwise the body applies the
supplied arguments. -/
def callConfig (st : KonsoleState) (kwargs : Kwargs) : Except String KonsoleState :=
  match kwargs.find? (fun kv => !(configKeywords.contains kv.1)) with
  | Option.some kv =>
      Except.error ("TypeError: config() got an unexpected keyword argument \x27" ++ kv.1 ++ "\x27")
  | Option.none =>
      Except.ok (config st ((kwGet "level" kwargs).bind PyVal.asInt)
        ((kwGet "use_color" kwargs).bind PyVal.asBool))

/-- How the body of a redirection scope finishes: normally with a value, or
by raising. -/
inductive Outcome (α : Type) where
  | normal (value : α)
  | raised (msg : String)

/-- The observable result of running a `redirect` scope: the handler's
stream after the scope exits, and how the body finished. -/
structure RedirectResult (σ : Type) (α : Type) where
  finalStream : σ
  outcome : Outcome α

/-- `redirect`, lines 283-292: save `_handler.stream`, install the new
stream, run the body (which receives the stream, may move the handler's
stream itself, and may finish normally or raise), and in the `finally`
block restore the saved stream. -/
def redirect {σ α : Type} (current : σ) (stream : σ) (body : σ → σ × Outcome α) :
    RedirectResult σ α :=
  let old_stream := current
  let entered := stream
  let result := body entered
  { finalStream := old_stream, outcome := result.2 }

/-! ## Sanity checks against the repository's own test expectations -/

/-- The embedding reproduces the styled `[INFO] fyi.` line expected by
`test.py`. -/
theorem formats_info_line_like_test :
    formatMessage true ⟨"INFO", "fyi", Option.none, Option.none⟩ =
      Except.ok "\x1b[1m[INFO]\x1b[0m \x1b[1mfyi.\x1b[0m" := rfl

/-- The embedding reproduces the styled `[ERROR] bad!` line with scalar
detail expected by `test.py`. -/
theorem formats_error_line_like_test :
    formatMessage true ⟨"ERROR", "bad!", Option.some (PyVal.str "broken!"), Option.none⟩ =
      Except.ok "\x1b[1;31m[ERROR]\x1b[0;39m \x1b[1mbad!\x1b[0m\x1b[90m\n    broken!\x1b[0m" := rfl

/-- The embedding reproduces the uncolored `[CRITICAL] big bad!` line
expected by `test.py`. -/
theorem formats_critical_line_like_test :
    formatMessage false ⟨"CRITICAL", "big bad!", Option.none, Option.none⟩ =
      Except.ok "[CRITICAL] big bad!" := rfl

/-! ## Helper lemmas -/

/-- The escape prefix of an applied SGR style, as a character list. -/
theorem esc_bracket_data : "\x1b[".data = ['\x1b', '['] := rfl

/-- A styled text always starts with the escape character. -/
theorem sgr_apply_head (sgr : SGR) (text : String) :
    (SGR.apply sgr text).data.head? = Option.some '\x1b' := by
  simp [SGR.apply, String.data_append, esc_bracket_data]

/-- An unstyled level label always starts with the opening bracket. -/
theorem bracket_head (name : String) :
    ("[" ++ name ++ "]").data.head? = Option.some '[' := by
  simp [String.data_append, show "[".data = ['['] from rfl]

/-- Appending `":"` makes a string end in recognized punctuation. -/
theorem endsWithPunctuation_append_colon (s : String) :
    endsWithPunctuation (s ++ ":") = true := by
  unfold endsWithPunctuation
  rw [List.any_eq_true]
  refine ⟨":", by simp [PUNCTUATION], ?_⟩
  simp [pyEndswith, String.data_append, show (":" : String).data = [':'] from rfl,
    List.isPrefixOf]

/-- Appending `"."` makes a string end in recognized punctuation. -/
theorem endsWithPunctuation_append_period (s : String) :
    endsWithPunctuation (s ++ ".") = true := by
  unfold endsWithPunctuation
  rw [List.any_eq_true]
  refine ⟨".", by simp [PUNCTUATION], ?_⟩
  simp [pyEndswith, String.data_append, show ("." : String).data = ['.'] from rfl,
    List.isPrefixOf]

/-! ## Claims -/

/-- C1: if the message already ends in one of the recognized terminal
punctuation marks, `formatMessage` appends no punctuation; otherwise it
appends exactly one character, `":"` when the rendered detail block is
non-empty or exception info is present and `"."` otherwise; and the result
always ends in recognized punctuation. -/
theorem punctuation_normalized (message detailText : String) (hasExc : Bool) :
    punctuate message detailText hasExc =
      (if endsWithPunctuation message then message
       else message ++ (if detailText ≠ "" ∨ hasExc = true then ":" else ".")) ∧
    endsWithPunctuation (punctuate message detailText hasExc) = true := by
  constructor
  · unfold punctuate
    by_cases h : endsWithPunctuation message
    · simp [h]
    · by_cases hd : detailText = ""
      · by_cases he : hasExc <;> simp [h, hd, he]
      · simp [h, hd]
  · unfold punctuate
    by_cases h : endsWithPunctuation message
    · simp [h]
    · by_cases hd : detailText = ""
      · by_cases he : hasExc <;>
          simp [h, hd, he, endsWithPunctuation_append_colon, endsWithPunctuation_append_period]
      · simp [h, hd, endsWithPunctuation_append_colon]

/-- C2: the code does NOT treat an empty detail mapping as width 0; the
`max()` call over the empty key set raises `ValueError`, contradicting the
spec and the repository's own test (`test.py` logs `detail={}` and expects
the line `[DEBUG] detail.`). This theorem evaluates the embedded code at the
failing input. -/
theorem empty_mapping_detail_raises :
    formatDetail false (Option.some (PyVal.dict [])) =
      Except.error "ValueError: max() arg is an empty sequence" ∧
    formatDetail true (Option.some (PyVal.dict [])) =
      Except.error "ValueError: max() arg is an empty sequence" := ⟨rfl, rfl⟩

/-- C3: `config` accepts no `volume` keyword at all — its signature is
keyword-only `level` and `use_color` — so the call
`config(level=ERROR, volume=2)` made by the repository's own test raises
`TypeError` instead of clamping and mapping the volume. This theorem
evaluates the embedded call at the test's input. -/
theorem config_volume_keyword_rejected :
    callConfig ⟨40, false⟩ [("level", PyVal.int 40), ("volume", PyVal.int 2)] =
      Except.error "TypeError: config() got an unexpected keyword argument \x27volume\x27" ∧
    ("volume" ∈ configKeywords) = False := by
  constructor
  · rfl
  · simp [configKeywords]

/-- C4: after a `redirect` scope exits — whether the body finished normally
or raised, and whatever the body did to the handler's stream — the active
output destination equals the destination active before the redirection
began, and the body's outcome is passed through. -/
theorem redirect_restores_stream (σ α : Type) (current stream : σ)
    (body : σ → σ × Outcome α) :
    (redirect current stream body).finalStream = current ∧
    (redirect current stream body).outcome = (body stream).2 := ⟨rfl, rfl⟩

/-- C6: the code does NOT split a scalar detail payload on line breaks: the
scalar `"one\ntwo"` is emitted as the single chunk `"\n    one\ntwo"`,
leaving the second source line unindented, whereas the spec and the
repository's own test (`test.py` expects `    one` and `    two` as two
indented lines) require `"\n    one\n    two"`. This theorem evaluates the
embedded code at the failing input. -/
theorem scalar_multiline_detail_not_split :
    formatDetail false (Option.some (PyVal.str "one\ntwo")) = Except.ok "\n    one\ntwo" ∧
    ("\n    one\ntwo" : String) ≠ "\n    one\n    two" := by
  exact ⟨rfl, by decide⟩

/-- C10: each severity-specific call — the `KonsoleLogger` methods and the
module-level functions — has exactly the same effect as the generic `log`
call with the corresponding fixed severity constant on the same logger. -/
theorem severity_calls_equal_generic_log (self msg : String) (args : List PyVal)
    (kwargs : Kwargs) :
    loggerCritical self msg args kwargs = konsoleLog self CRITICAL msg args kwargs ∧
    loggerError self msg args kwargs = konsoleLog self ERROR msg args kwargs ∧
    loggerWarning self msg args kwargs = konsoleLog self WARNING msg args kwargs ∧
    loggerInfo self msg args kwargs = konsoleLog self INFO msg args kwargs ∧
    loggerDebug self msg args kwargs = konsoleLog self DEBUG msg args kwargs ∧
    moduleCritical msg args kwargs = moduleLog CRITICAL msg args kwargs ∧
    moduleError msg args kwargs = moduleLog ERROR msg args kwargs ∧
    moduleWarning msg args kwargs = moduleLog WARNING msg args kwargs ∧
    moduleInfo msg args kwargs = moduleLog INFO msg args kwargs ∧
    moduleDebug msg args kwargs = moduleLog DEBUG msg args kwargs :=
  ⟨rfl, rfl, rfl, rfl, rfl, rfl, rfl, rfl, rfl, rfl⟩

/-- C5: the message body is wrapped in the `MESSAGE` style exactly when the
record's severity label has a registered style and color is enabled; the
`DEBUG` label has no registered style, and the `MESSAGE` role is bold
(`SGR ⟨"1", "0"⟩`). -/
theorem body_emphasis_iff_label_styled (use_color : Bool) (levelname body : String) :
    shapeBody use_color levelname body =
      (if (STYLE levelname).isSome && use_color then SGR.apply ⟨"1", "0"⟩ body else body) ∧
    STYLE "DEBUG" = Option.none ∧
    STYLE MESSAGE = Option.some ⟨"1", "0"⟩ := by
  refine ⟨?_, rfl, rfl⟩
  cases h : STYLE levelname with
  | none =>
      have hl : styledLevel use_color levelname = "[" ++ levelname ++ "]" := by
        simp [styledLevel, applyStyle, h]
      simp [shapeBody, hl, bracket_head, h]
  | some sty =>
      cases use_color with
      | false =>
          have hl : styledLevel false levelname = "[" ++ levelname ++ "]" := by
            simp [styledLevel, applyStyle, h]
          simp [shapeBody, hl, bracket_head, h]
      | true =>
          have hl : styledLevel true levelname = SGR.apply sty ("[" ++ levelname ++ "]") := by
            simp [styledLevel, applyStyle, h]
          simp [shapeBody, hl, sgr_apply_head, h,
            show applyStyle true MESSAGE body = SGR.apply ⟨"1", "0"⟩ body from rfl]

/-- C7 counterexample: with color enabled, `formatDetail` on an empty
sequence does NOT return the empty string — the `detail` style is applied
unconditionally, so the result is the bare enable and disable directives. -/
theorem empty_sequence_detail_styled_not_empty :
    formatDetail true (Option.some (PyVal.list [])) ≠ Except.ok "" := by
  intro h
  rw [show formatDetail true (Option.some (PyVal.list [])) =
      Except.ok "\x1b[90m\x1b[0m" from rfl] at h
  injection h with h2
  exact absurd h2 (by decide)

/-- C7 amended: `formatDetail` passes the concatenation of produced lines
through the style registry unconditionally, so zero produced lines yield the
empty string only when color is disabled (or the payload is absent); with
color enabled an empty sequence yields the detail style's enable and disable
directives around an empty body. -/
theorem detail_styling_amended (use_color : Bool) (items : List PyVal) :
    formatDetail use_color (Option.some (PyVal.list items)) =
      Except.ok (applyStyle use_color DETAIL
        (String.join (items.map (fun item => "\n    " ++ pyStr item)))) ∧
    formatDetail false (Option.some (PyVal.list [])) = Except.ok "" ∧
    formatDetail true (Option.some (PyVal.list [])) =
      Except.ok ("\x1b[90m" ++ "\x1b[0m") ∧
    formatDetail use_color Option.none = Except.ok "" :=
  ⟨rfl, rfl, rfl, rfl⟩

/-- C8 counterexample: `formatException` does NOT indent the first line of
the traceback text: a single-line text is returned without the four-space
indent the claim requires. -/
theorem exception_first_line_not_indented :
    formatException false "Boom" = "Boom" ∧
    formatException false "Boom" ≠ "    Boom" := by
  refine ⟨rfl, ?_⟩
  intro h
  rw [show formatException false "Boom" = "Boom" from rfl] at h
  exact absurd h (by decide)

/-- C8 amended: `formatException` indents every line of the traceback text
AFTER the first by four spaces — it joins the split lines with a line break
plus four spaces, leaving the first line unindented — wraps the whole block
in the `EXCEPTION` style, and the exception block is empty when no exception
info is present. -/
theorem exception_indentation_amended (use_color : Bool) (tracebackText : String) :
    formatException use_color tracebackText =
      applyStyle use_color EXCEPTION
        (String.intercalate "\n    " (pySplit tracebackText '\n')) ∧
    renderException use_color Option.none = "" ∧
    formatException false "Traceback (most recent call last):\n  boom\nValueError" =
      "Traceback (most recent call last):\n      boom\n    ValueError" ∧
    formatException true "a\nb" = "\x1b[90ma\n    b\x1b[0m" :=
  ⟨rfl, rfl, rfl, rfl⟩

/-- Membership in the keyword arguments is lookup success. -/
theorem kwHas_eq_isSome (key : String) (kwargs : Kwargs) :
    kwHas key kwargs = (kwGet key kwargs).isSome := by
  induction kwargs with
  | nil => rfl
  | cons kv rest ih =>
      cases h : kv.1 == key with
      | true => simp [kwHas, kwGet, List.find?, h]
      | false => simpa [kwHas, kwGet, List.find?, h] using ih

/-- Removing one key leaves lookups of a different key unchanged. -/
theorem kwGet_kwRemove_ne (key rkey : String) (kwargs : Kwargs)
    (h : (key == rkey) = false) :
    kwGet key (kwRemove rkey kwargs) = kwGet key kwargs := by
  induction kwargs with
  | nil => rfl
  | cons kv rest ih =>
      cases hk : kv.1 == rkey with
      | false =>
          cases hk2 : kv.1 == key with
          | true => simp [kwRemove, kwGet, List.filter, List.find?, hk, hk2]
          | false => simpa [kwRemove, kwGet, List.filter, List.find?, hk, hk2] using ih
      | true =>
          have hk2 : (kv.1 == key) = false := by
            have h1 : kv.1 = rkey := by simpa using hk
            have h2 : ¬ key = rkey := by simpa using h
            simp [h1]
            intro h3
            exact h2 h3.symm
          simpa [kwRemove, kwGet, List.filter, List.find?, hk, hk2] using ih

/-- After removing a key it is no longer present. -/
theorem kwHas_kwRemove_self (key : String) (kwargs : Kwargs) :
    kwHas key (kwRemove key kwargs) = false := by
  induction kwargs with
  | nil => rfl
  | cons kv rest ih =>
      cases hk : kv.1 == key with
      | true =>
          rw [show kwRemove key (kv :: rest) = kwRemove key rest by
            simp [kwRemove, List.filter, hk]]
          exact ih
      | false =>
          rw [show kwRemove key (kv :: rest) = kv :: kwRemove key rest by
            simp [kwRemove, List.filter, hk]]
          rw [show kwHas key (kv :: kwRemove key rest) =
              (kv.1 == key || kwHas key (kwRemove key rest)) from rfl]
          rw [hk, ih]
          rfl

/-- Setting one key does not create a different key (map branch). -/
theorem kwHas_map_set (key skey : String) (v : PyVal) (l : List (String × PyVal))
    (hne : (skey == key) = false) :
    kwHas key (l.map (fun kv => if kv.1 == skey then (skey, v) else kv)) = kwHas key l := by
  induction l with
  | nil => rfl
  | cons kv rest ih =>
      simp only [kwHas, List.map_cons, List.any_cons] at ih ⊢
      rw [ih]
      by_cases hk : kv.1 = skey
      · have hk2 : (kv.1 == key) = false := by simpa [hk] using hne
        simp [hk, hne, hk2]
      · simp [hk]

/-- Setting one key does not create a different key. -/
theorem kwHas_assocSet_ne (key skey : String) (v : PyVal) (l : List (String × PyVal))
    (hne : (skey == key) = false) :
    kwHas key (assocSet skey v l) = kwHas key l := by
  unfold assocSet
  cases ha : l.any (fun kv => kv.1 == skey) with
  | true => simpa [ha] using kwHas_map_set key skey v l hne
  | false => simp [ha, kwHas, List.any_append, hne]

/-- C9: a logging call carrying a `detail` keyword removes it before
forwarding (the forwarded keyword arguments never contain `detail`); when no
`extra` slot was supplied a fresh mapping holding the detail is installed;
and the call raises exactly when the caller supplied an `extra` slot whose
value is not a mapping, in which case a `ValueError` is surfaced. -/
theorem detail_attachment_preparation (loggerName : String) (level : Int)
    (msg : String) (args : List PyVal) (d : PyVal) (rest : Kwargs) :
    konsoleLog loggerName level msg args (("detail", d) :: rest) =
      (match kwGet "extra" rest with
       | Option.none =>
           Except.ok ⟨loggerName, level, msg, args,
             assocSet "extra" (PyVal.dict [("detail", d)]) (kwRemove "detail" rest)⟩
       | Option.some (PyVal.dict entries) =>
           Except.ok ⟨loggerName, level, msg, args,
             assocSet "extra" (PyVal.dict (assocSet "detail" d entries)) (kwRemove "detail" rest)⟩
       | Option.some v =>
           Except.error ("ValueError: \"extra\" must be a dictionary but is \"" ++ pyStr v ++ "\"!")) ∧
    kwHas "detail" (okKwargs (konsoleLog loggerName level msg args (("detail", d) :: rest))) = false := by
  have hdet : kwHas "detail" (("detail", d) :: rest) = true := by simp [kwHas]
  have hget : kwGet "detail" (("detail", d) :: rest) = Option.some d := by
    simp [kwGet, List.find?]
  have hrem : kwRemove "detail" (("detail", d) :: rest) = kwRemove "detail" rest := by
    simp [kwRemove, List.filter]
  have hx : kwGet "extra" (kwRemove "detail" rest) = kwGet "extra" rest :=
    kwGet_kwRemove_ne "extra" "detail" rest (by decide)
  have hhas : kwHas "extra" (kwRemove "detail" rest) = (kwGet "extra" rest).isSome := by
    rw [kwHas_eq_isSome, hx]
  have hnodet : ∀ v : PyVal,
      kwHas "detail" (assocSet "extra" v (kwRemove "detail" rest)) = false := by
    intro v
    rw [kwHas_assocSet_ne "detail" "extra" v _ (by decide)]
    exact kwHas_kwRemove_self "detail" rest
  have hmain : konsoleLog loggerName level msg args (("detail", d) :: rest) =
      (match kwGet "extra" rest with
       | Option.none =>
           Except.ok ⟨loggerName, level, msg, args,
             assocSet "extra" (PyVal.dict [("detail", d)]) (kwRemove "detail" rest)⟩
       | Option.some (PyVal.dict entries) =>
           Except.ok ⟨loggerName, level, msg, args,
             assocSet "extra" (PyVal.dict (assocSet "detail" d entries)) (kwRemove "detail" rest)⟩
       | Option.some v =>
           Except.error ("ValueError: \"extra\" must be a dictionary but is \"" ++ pyStr v ++ "\"!")) := by
    cases hxv : kwGet "extra" rest with
    | none =>
        have hh : kwHas "extra" (kwRemove "detail" rest) = false := by
          rw [hhas, hxv]; rfl
        simp [konsoleLog, prepareDetail, hdet, hget, hrem, hh, hxv]
    | some v =>
        have hh : kwHas "extra" (kwRemove "detail" rest) = true := by
          rw [hhas, hxv]; rfl
        have hx2 : kwGet "extra" (kwRemove "detail" rest) = Option.some v := by
          rw [hx, hxv]
        cases v <;> simp [konsoleLog, prepareDetail, hdet, hget, hrem, hh, hx2]
  refine ⟨hmain, ?_⟩
  rw [hmain]
  cases hxv : kwGet "extra" rest with
  | none => simpa [okKwargs] using hnodet (PyVal.dict [("detail", d)])
  | some v =>
      cases v with
      | dict entries => simpa [okKwargs] using hnodet (PyVal.dict (assocSet "detail" d entries))
      | str s => simp [okKwargs, kwHas]
      | int n => simp [okKwargs, kwHas]
      | bool b => simp [okKwargs, kwHas]
      | none => simp [okKwargs, kwHas]
      | list items => simp [okKwargs, kwHas]
      | tuple items => simp [okKwargs, kwHas]

end Konsole
